import Mathlib

/-!
# Verification of the icecast-kh streaming core (`src/src/source.c`)

Shallow embedding of the per-mountpoint streaming pipeline of
`src/src/source.c`: C structs become Lean structures, `next`-pointer
chains become lists, reference-count add/release calls (implemented in
the external `refbuf.c`) become event lists, and the functions under
scrutiny are translated statement by statement.  Theorems then settle
the specification claims about those functions.
-/

/-- A reference-counted stream buffer (`refbuf_t`).  `id` stands in for
the pointer identity, `len` for `->len`, `sync` for the
`SOURCE_BLOCK_SYNC` flag, `release` for `SOURCE_BLOCK_RELEASE`
(`MARKED_FOR_RELEASE`), and `count` for the reference count `->_count`. -/
structure RefBlock where
  id : Nat
  len : Nat
  sync : Bool := false
  release : Bool := false
  count : Nat := 1
deriving DecidableEq, Repr

/-- Total byte length of a chain of buffers. -/
def sumLens (l : List RefBlock) : Nat := (l.map RefBlock.len).sum

theorem sumLens_nil : sumLens [] = 0 := rfl

theorem sumLens_cons (b : RefBlock) (l : List RefBlock) :
    sumLens (b :: l) = b.len + sumLens l := by
  simp [sumLens]

theorem sumLens_append (l₁ l₂ : List RefBlock) :
    sumLens (l₁ ++ l₂) = sumLens l₁ + sumLens l₂ := by
  simp [sumLens]

/-- Result of the burst-advance loop in `source_read`
(`src/src/source.c` lines 527-543): either the loop finishes with the
new `min_queue_offset`, the remaining `min_queue_point` chain and the
blocks whose burst-retention reference was released (in pop order), or
the `abort()` on line 540 fires. -/
inductive BurstResult where
  | ok (offset : Nat) (chain : List RefBlock) (released : List RefBlock)
  | aborted
deriving DecidableEq, Repr

/-- The burst-advance loop of `source_read` (`src/src/source.c` lines
527-543).  `chain` is the `next` chain hanging off `min_queue_point`
(`[]` models a NULL `min_queue_point`), `tailId` the identity of the
newly appended refbuf.  While `min_queue_offset > min_queue_size`: if
the point exists and has a successor, its length is subtracted, the
point advances and one burst reference on it is released; otherwise, if
the point is not the new tail the process is `abort()`ed, else the loop
breaks. -/
def burst_advance (minSize tailId : Nat) : Nat → List RefBlock → BurstResult
  | offset, [] => if offset ≤ minSize then .ok offset [] [] else .aborted
  | offset, [b] =>
    if offset ≤ minSize then .ok offset [b] []
    else if b.id = tailId then .ok offset [b] [] else .aborted
  | offset, b :: c :: rest =>
    if offset ≤ minSize then .ok offset (b :: c :: rest) []
    else
      match burst_advance minSize tailId (offset - b.len) (c :: rest) with
      | .ok o ch rel => .ok o ch (b :: rel)
      | .aborted => .aborted

/-- Queue-related state of a `source_t` as used by the append path of
`source_read`.  `streamData` is the whole queue `stream_data ..
stream_data_tail` (oldest first), `mqpChain` the `next` chain from
`min_queue_point` (in a well-formed state, a suffix of `streamData`). -/
structure SourceQ where
  streamData : List RefBlock
  mqpChain : List RefBlock
  minQueueOffset : Nat
  minQueueSize : Nat
  queueSize : Nat
  queueSizeLimit : Nat
  running : Bool
deriving DecidableEq, Repr

/-- The append path of `source_read` (`src/src/source.c` lines
498-543) for a refbuf `r` returned by `format->get_buffer`: the empty
queue initialisation (lines 503-508), the "queue oddity" check that
clears `SOURCE_RUNNING` (lines 511-515), the tail link and the
burst-advance loop.  `tail->next = refbuf` extends the
`min_queue_point` chain exactly when that chain reaches the old tail;
a dangling `min_queue_point` keeps its own chain.  Returns the new
state, the blocks whose burst reference was released, and whether the
`abort()` on line 540 fired (in which case the process dies and the
state is not observable). -/
def source_read_append (s : SourceQ) (r : RefBlock) :
    SourceQ × List RefBlock × Bool :=
  let empty := s.streamData.isEmpty
  let running' := if ¬empty ∧ s.minQueueOffset > s.minQueueSize then false
                  else s.running
  let chain0 := if empty then [r]
                else if s.mqpChain.getLast? = s.streamData.getLast? then
                  s.mqpChain ++ [r]
                else s.mqpChain
  let offset0 := (if empty then 0 else s.minQueueOffset) + r.len
  match burst_advance s.minQueueSize r.id offset0 chain0 with
  | .ok off ch rel =>
    ({ s with streamData := s.streamData ++ [r],
              mqpChain := ch,
              minQueueOffset := off,
              queueSize := s.queueSize + r.len,
              running := running' }, rel, false)
  | .aborted => (s, [], true)

theorem burst_advance_ok (minSize : Nat) (r : RefBlock) :
    ∀ (chain : List RefBlock) (offset : Nat), chain ≠ [] →
      chain.getLast? = some r →
      offset = sumLens chain →
      ∃ off ch rel, burst_advance minSize r.id offset chain = .ok off ch rel ∧
        off = sumLens ch ∧ ch.getLast? = some r ∧ rel ++ ch = chain ∧
        sumLens rel + off = offset ∧ off ≤ minSize + r.len := by
  intro chain
  induction chain with
  | nil => intro offset h; exact absurd rfl h
  | cons b rest ih =>
    intro offset _ hlast hsum
    by_cases hle : offset ≤ minSize
    · refine ⟨offset, b :: rest, [], ?_, hsum, hlast, rfl, by simp [sumLens_nil], ?_⟩
      · cases rest with
        | nil => simp [burst_advance, hle]
        | cons c rest' => simp [burst_advance, hle]
      · omega
    · cases rest with
      | nil =>
        have hb : b = r := by simpa using hlast
        refine ⟨offset, [b], [], ?_, hsum, hlast, rfl, by simp [sumLens_nil], ?_⟩
        · simp [burst_advance, hle, hb]
        · rw [hsum, hb]
          simp [sumLens_cons, sumLens_nil]
      | cons c rest' =>
        have hlast' : (c :: rest').getLast? = some r := by
          simpa [List.getLast?_cons_cons] using hlast
        have hsum' : offset - b.len = sumLens (c :: rest') := by
          rw [hsum, sumLens_cons]; omega
        obtain ⟨off, ch, rel, heq, hoff, hl, hrel, hacc, hbound⟩ :=
          ih (offset - b.len) (by simp) hlast' hsum'
        refine ⟨off, ch, b :: rel, ?_, hoff, hl, by simp [hrel], ?_, hbound⟩
        · simp [burst_advance, hle, heq]
        · have hge : b.len ≤ offset := by
            rw [hsum, sumLens_cons]; omega
          rw [sumLens_cons]
          omega

/-- C1: appending a refbuf `r` from `get_buffer` to a non-empty queue
runs the burst-advance loop while `min_queue_offset > min_queue_size`
and `min_queue_point` has a successor, each iteration subtracting the
old point's length from `min_queue_offset`, advancing the point and
releasing one burst-retention reference on it (`rel` lists those
blocks in order); when the append completes normally,
`min_queue_offset ≤ min_queue_size + r.len` with `r` the new tail. -/
theorem c1_append_burst_advance (s : SourceQ) (r : RefBlock)
    (hne : s.streamData ≠ [])
    (hlast : s.mqpChain.getLast? = s.streamData.getLast?)
    (hsum : s.minQueueOffset = sumLens s.mqpChain) :
    ∃ s' rel, source_read_append s r = (s', rel, false) ∧
      s'.minQueueOffset ≤ s.minQueueSize + r.len ∧
      rel ++ s'.mqpChain = s.mqpChain ++ [r] ∧
      sumLens rel + s'.minQueueOffset = s.minQueueOffset + r.len ∧
      s'.mqpChain.getLast? = some r ∧
      s'.streamData = s.streamData ++ [r] ∧
      s'.queueSize = s.queueSize + r.len ∧
      s'.minQueueSize = s.minQueueSize := by
  have hempty : s.streamData.isEmpty = false := by
    cases h : s.streamData with
    | nil => exact absurd h hne
    | cons a l => simp [List.isEmpty]
  have hchain0 : (s.mqpChain ++ [r]).getLast? = some r := by
    simp
  have hsum0 : s.minQueueOffset + r.len = sumLens (s.mqpChain ++ [r]) := by
    rw [sumLens_append, hsum, sumLens_cons, sumLens_nil]
    omega
  obtain ⟨off, ch, rel, heq, hoff, hl, hrel, hacc, hbound⟩ :=
    burst_advance_ok s.minQueueSize r (s.mqpChain ++ [r])
      (s.minQueueOffset + r.len) (by simp) hchain0 hsum0
  have hkey : source_read_append s r =
      ({ s with streamData := s.streamData ++ [r],
                mqpChain := ch,
                minQueueOffset := off,
                queueSize := s.queueSize + r.len,
                running := if s.minQueueOffset > s.minQueueSize then false
                           else s.running }, rel, false) := by
    unfold source_read_append
    simp only [hempty, hlast, Bool.false_eq_true, not_false_iff, true_and,
      if_true, if_false, ite_true, ite_false]
    rw [heq]
  refine ⟨_, rel, hkey, ?_, ?_, ?_, ?_, ?_, ?_, ?_⟩
  · simpa using hbound
  · simpa using hrel
  · simpa using hacc
  · simpa using hl
  · simp
  · simp
  · simp

/-- Concrete one-block queue used to exercise `source_read_append`. -/
def qDemo : SourceQ :=
  { streamData := [{ id := 0, len := 3 }],
    mqpChain := [{ id := 0, len := 3 }],
    minQueueOffset := 3, minQueueSize := 2, queueSize := 3,
    queueSizeLimit := 100, running := true }

/-- Witness for C1: `c1_append_burst_advance` applied to a concrete
one-block queue and a two-byte refbuf. -/
theorem c1_append_burst_advance_witness :
    ∃ s' rel, source_read_append qDemo { id := 1, len := 2 } = (s', rel, false) ∧
      s'.minQueueOffset ≤ qDemo.minQueueSize + 2 ∧
      rel ++ s'.mqpChain = qDemo.mqpChain ++ [{ id := 1, len := 2 }] ∧
      sumLens rel + s'.minQueueOffset = qDemo.minQueueOffset + 2 ∧
      s'.mqpChain.getLast? = some { id := 1, len := 2 } ∧
      s'.streamData = qDemo.streamData ++ [{ id := 1, len := 2 }] ∧
      s'.queueSize = qDemo.queueSize + 2 ∧
      s'.minQueueSize = qDemo.minQueueSize :=
  c1_append_burst_advance qDemo { id := 1, len := 2 }
    (by decide) (by decide) (by decide)

/-- C4 (amended, first kind): when `source_read` appends to a non-empty
queue and finds `min_queue_offset > min_queue_size` (the "queue oddity"
check of lines 511-515), then whenever the pass completes without
hitting the `abort()`, the `SOURCE_RUNNING` flag has been cleared; the
second kind of violation (a `min_queue_point` that cannot reach the new
tail, lines 537-541) instead calls `abort()`, exiting the process. -/
theorem c4_append_violation_clears_running (s : SourceQ) (r : RefBlock)
    (hne : s.streamData ≠ [])
    (hviol : s.minQueueOffset > s.minQueueSize) :
    ∀ s' rel, source_read_append s r = (s', rel, false) → s'.running = false := by
  intro s' rel h
  have hempty : s.streamData.isEmpty = false := by
    cases hh : s.streamData with
    | nil => exact absurd hh hne
    | cons a l => simp [List.isEmpty]
  simp only [source_read_append, hempty, Bool.false_eq_true, not_false_iff,
    true_and, if_false, ite_false] at h
  split at h
  · rw [Prod.mk.injEq, Prod.mk.injEq] at h
    obtain ⟨h1, -, -⟩ := h
    subst h1
    simp [hviol]
  · simp at h

/-- Counterexample to C4 as stated: a state whose `min_queue_point`
chain cannot reach the newly appended tail (here it dangles on a block
with id 5 while the queue tail gets id 1).  `source_read` then takes
the `abort()` branch (third component `true`), so the process exits and
`SOURCE_RUNNING` is *not* cleared, contradicting the claim that both
violation kinds only log, clear RUNNING and keep the process alive. -/
theorem c4_counterexample :
    source_read_append
      { streamData := [{ id := 0, len := 1 }],
        mqpChain := [{ id := 5, len := 2 }],
        minQueueOffset := 2, minQueueSize := 1, queueSize := 1,
        queueSizeLimit := 10, running := true }
      { id := 1, len := 1 } =
    ({ streamData := [{ id := 0, len := 1 }],
       mqpChain := [{ id := 5, len := 2 }],
       minQueueOffset := 2, minQueueSize := 1, queueSize := 1,
       queueSizeLimit := 10, running := true }, [], true) := by
  decide

/-- Witness for C4 (amended): a concrete append with
`min_queue_offset = 3 > 2 = min_queue_size` that completes without
abort and ends with `running = false`. -/
theorem c4_append_violation_clears_running_witness :
    (SourceQ.running
      { streamData := [{ id := 0, len := 1 }, { id := 1, len := 2 }],
        mqpChain := [{ id := 1, len := 2 }],
        minQueueOffset := 4, minQueueSize := 2, queueSize := 3,
        queueSizeLimit := 10, running := false }) = false :=
  c4_append_violation_clears_running
    { streamData := [{ id := 0, len := 1 }],
      mqpChain := [{ id := 0, len := 1 }],
      minQueueOffset := 3, minQueueSize := 2, queueSize := 1,
      queueSizeLimit := 10, running := true }
    { id := 1, len := 2 }
    (by decide) (by decide)
    { streamData := [{ id := 0, len := 1 }, { id := 1, len := 2 }],
      mqpChain := [{ id := 1, len := 2 }],
      minQueueOffset := 4, minQueueSize := 2, queueSize := 3,
      queueSizeLimit := 10, running := false }
    [{ id := 0, len := 1 }]
    (by decide)

/-- The trim-from-head loop at the end of every `source_read` pass
(`src/src/source.c` lines 563-574): while `queue_size >
queue_size_limit` or the head block's reference count is 1 (only the
queue holds it), the head is unlinked (`to_go->next = NULL`), flagged
`SOURCE_BLOCK_RELEASE` and has one reference released.  Arguments are
the running `queue_size` and the queue `stream_data .. tail`; the
result is the final `queue_size`, the remaining queue and the removed
blocks in removal order (flag set).  `none` models the state in which
the C loop would dereference a NULL `stream_data` (empty queue with
`queue_size > queue_size_limit`), which cannot arise when `queue_size`
is the sum of the queued lengths. -/
def source_read_trim (limit : Nat) : Nat → List RefBlock →
    Option (Nat × List RefBlock × List RefBlock)
  | qs, [] => if qs > limit then none else some (qs, [], [])
  | qs, b :: rest =>
    if qs > limit ∨ b.count = 1 then
      match source_read_trim limit (qs - b.len) rest with
      | some (q, rem, gone) =>
        some (q, rem, { b with release := true } :: gone)
      | none => none
    else some (qs, b :: rest, [])

/-- C2: at the end of a `source_read` pass the trim loop removes the
queue head while `queue_size > queue_size_limit` or the head's
reference count equals 1; every removed head is flagged
`SOURCE_BLOCK_RELEASE` and released (blocks listed in `gone`, a prefix
of the queue, each detached from its successor); when the loop
terminates, `queue_size ≤ queue_size_limit` (which subsumes the
claimed disjunction with the tail-only case). -/
theorem c2_trim_loop (limit : Nat) :
    ∀ (queue : List RefBlock) (qs : Nat), qs = sumLens queue →
      ∃ qs' rem gone, source_read_trim limit qs queue = some (qs', rem, gone) ∧
        qs' ≤ limit ∧ qs' = sumLens rem ∧
        (∃ pre, queue = pre ++ rem ∧
          gone = pre.map (fun b => { b with release := true })) ∧
        ∀ b ∈ gone, b.release = true := by
  intro queue
  induction queue with
  | nil =>
    intro qs hsum
    rw [sumLens_nil] at hsum
    refine ⟨0, [], [], ?_, by omega, sumLens_nil.symm, ⟨[], by simp⟩, by simp⟩
    simp [source_read_trim, hsum]
  | cons b rest ih =>
    intro qs hsum
    by_cases hc : qs > limit ∨ b.count = 1
    · have hsum' : qs - b.len = sumLens rest := by
        rw [hsum, sumLens_cons]; omega
      obtain ⟨qs', rem, gone, heq, hle, hrem, ⟨pre, hpre, hgone⟩, hrel⟩ :=
        ih (qs - b.len) hsum'
      refine ⟨qs', rem, { b with release := true } :: gone, ?_, hle, hrem,
        ⟨b :: pre, by simp [hpre], by simp [hgone]⟩, ?_⟩
      · simp [source_read_trim, hc, heq]
      · intro x hx
        rcases List.mem_cons.mp hx with h | h
        · rw [h]
        · exact hrel x h
    · push_neg at hc
      have hcond : ¬(qs > limit ∨ b.count = 1) := by
        rintro (h | h)
        · omega
        · exact hc.2 h
      refine ⟨qs, b :: rest, [], ?_, hc.1, hsum, ⟨[], by simp⟩, by simp⟩
      simp [source_read_trim, hcond]

/-- Witness for C2: a two-block queue over the limit; the head is
trimmed, the tail stays. -/
theorem c2_trim_loop_witness :
    ∃ qs' rem gone,
      source_read_trim 5 7 [{ id := 0, len := 3, count := 2 },
                            { id := 1, len := 4, count := 2 }] =
        some (qs', rem, gone) ∧
      qs' ≤ 5 ∧ qs' = sumLens rem ∧
      (∃ pre, [({ id := 0, len := 3, count := 2 } : RefBlock),
               { id := 1, len := 4, count := 2 }] = pre ++ rem ∧
        gone = pre.map (fun b => { b with release := true })) ∧
      ∀ b ∈ gone, b.release = true :=
  c2_trim_loop 5 [{ id := 0, len := 3, count := 2 },
                  { id := 1, len := 4, count := 2 }] 7 (by decide)

/-- Source state relevant to `source_shutdown`, `source_set_fallback`
and the `SOURCE_LISTENERS_SYNC` entry check of `source_read`.  Flag
bits of `source->flags` are individual booleans; `woken` records
whether `source_listeners_wakeup` ran; `timerStart` is the attached
source client's `timer_start`; mounts are identified by numbers.
`connectedSecs` stands for `worker->current_time.tv_sec -
client->connection.con_time` and `inRateAvg` for
`rate_avg (source->format->in_bitrate)`, both read-only inputs of
`source_set_fallback`. -/
structure SrcState where
  running : Bool
  onDemand : Bool
  timeoutFlag : Bool
  terminating : Bool
  listenersSync : Bool
  listeners : Nat
  terminationCount : Nat
  timerStart : Nat
  fallbackMount : Option Nat
  fallbackFS : Bool
  fallbackLimit : Nat
  fallbackType : Nat
  formatType : Nat
  limitRate : Nat
  connectedSecs : Nat
  inRateAvg : Nat
  woken : Bool
deriving DecidableEq, Repr

/-- `source_set_fallback` (`src/src/source.c` lines 1220-1249).  A NULL
`dest_mount` or a zero listener count only logs and returns; otherwise
the bitrate hint is computed (average incoming rate once connected for
more than 40 s, else `limit_rate` if set) and the fallback record
`fallback.{mount,flags,limit,type}` is installed. -/
def source_set_fallback (s : SrcState) (destMount : Option Nat) : SrcState :=
  match destMount with
  | none => s
  | some dest =>
    if s.listeners = 0 then s
    else
      let bitrate := if s.connectedSecs > 40 then s.inRateAvg else 0
      let bitrate := if bitrate = 0 ∧ s.limitRate ≠ 0 then s.limitRate
                     else bitrate
      { s with fallbackMount := some dest, fallbackFS := true,
               fallbackLimit := bitrate, fallbackType := s.formatType }

/-- `source_shutdown` (`src/src/source.c` lines 1252-1278).
Unconditionally clears `SOURCE_ON_DEMAND|SOURCE_TIMEOUT`, re-arms the
termination sync (`termination_count := listeners`, `timer_start :=
now`, sets `SOURCE_TERMINATING|SOURCE_LISTENERS_SYNC`) and wakes every
listener; then, when a config entry exists, `with_fallback` is set and
the server is running, installs the configured fallback.  The stats
update and on-disconnect hook are external and stateless here.
`mountinfoFallback` is `none` when `config_find_mount` finds no entry,
otherwise `some fb` with `fb` the entry's `fallback_mount`. -/
def source_shutdown (s : SrcState) (withFallback : Bool) (nowMs : Nat)
    (mountinfoFallback : Option (Option Nat)) (globalRunning : Bool) :
    SrcState :=
  let s1 := { s with onDemand := false, timeoutFlag := false,
                     terminationCount := s.listeners,
                     timerStart := nowMs,
                     terminating := true, listenersSync := true,
                     woken := true }
  match mountinfoFallback with
  | some fb => if withFallback ∧ globalRunning then source_set_fallback s1 fb
               else s1
  | none => s1

/-- The `source_shutdown` call site in `source_client_read`
(`src/src/source.c` lines 636-637): the shutdown is invoked, with
`with_fallback = 1`, only when `SOURCE_TERMINATING` is not yet set. -/
def source_client_read_shutdown_guard (s : SrcState) (nowMs : Nat)
    (mountinfoFallback : Option (Option Nat)) (globalRunning : Bool) :
    SrcState :=
  if s.terminating then s
  else source_shutdown s true nowMs mountinfoFallback globalRunning

/-- The `SOURCE_LISTENERS_SYNC` entry check of `source_read`
(`src/src/source.c` lines 411-431).  When syncing with a nonzero
`termination_count`: if more than 1500 ms have passed since
`timer_start`, `SOURCE_RUNNING|SOURCE_LISTENERS_SYNC` are cleared
together; either way the pass returns early (`true`).  With a zero
`termination_count` the fallback record's mount is freed and
`SOURCE_LISTENERS_SYNC` alone is cleared, and the pass continues
(`false`). -/
def source_read_sync_check (s : SrcState) (timeMs : Nat) : SrcState × Bool :=
  if s.listenersSync then
    if s.terminationCount ≠ 0 then
      (if s.timerStart + 1500 < timeMs then
        { s with running := false, listenersSync := false }
       else s, true)
    else
      ({ s with fallbackMount := none, listenersSync := false }, false)
  else (s, false)

/-- C6 (amended): `source_shutdown` itself is unconditional, but its
re-entry is guarded at the call site: `source_client_read` invokes it
only when `SOURCE_TERMINATING` is clear, so on an already-terminating
source the guarded step changes nothing and wakes no listener. -/
theorem c6_shutdown_guard_noop (s : SrcState) (nowMs : Nat)
    (mountinfoFallback : Option (Option Nat)) (globalRunning : Bool)
    (h : s.terminating = true) :
    source_client_read_shutdown_guard s nowMs mountinfoFallback
      globalRunning = s := by
  simp [source_client_read_shutdown_guard, h]

/-- Witness for C6 (amended) at a concrete terminating source. -/
theorem c6_shutdown_guard_noop_witness :
    source_client_read_shutdown_guard
      { running := false, onDemand := false, timeoutFlag := false,
        terminating := true, listenersSync := true, listeners := 3,
        terminationCount := 0, timerStart := 0, fallbackMount := none,
        fallbackFS := false, fallbackLimit := 0, fallbackType := 0,
        formatType := 0, limitRate := 0, connectedSecs := 0,
        inRateAvg := 0, woken := false } 7 none true =
      { running := false, onDemand := false, timeoutFlag := false,
        terminating := true, listenersSync := true, listeners := 3,
        terminationCount := 0, timerStart := 0, fallbackMount := none,
        fallbackFS := false, fallbackLimit := 0, fallbackType := 0,
        formatType := 0, limitRate := 0, connectedSecs := 0,
        inRateAvg := 0, woken := false } :=
  c6_shutdown_guard_noop _ 7 none true rfl

/-- Counterexample to C6 as stated: calling `source_shutdown` directly
on a source whose `SOURCE_TERMINATING` flag is already set is *not* a
no-op — it resets `termination_count` to the listener count, restamps
`timer_start` and wakes the listeners. -/
theorem c6_counterexample :
    source_shutdown
      { running := false, onDemand := false, timeoutFlag := false,
        terminating := true, listenersSync := true, listeners := 3,
        terminationCount := 0, timerStart := 0, fallbackMount := none,
        fallbackFS := false, fallbackLimit := 0, fallbackType := 0,
        formatType := 0, limitRate := 0, connectedSecs := 0,
        inRateAvg := 0, woken := false } true 7 none true ≠
      { running := false, onDemand := false, timeoutFlag := false,
        terminating := true, listenersSync := true, listeners := 3,
        terminationCount := 0, timerStart := 0, fallbackMount := none,
        fallbackFS := false, fallbackLimit := 0, fallbackType := 0,
        formatType := 0, limitRate := 0, connectedSecs := 0,
        inRateAvg := 0, woken := false } := by
  decide

/-- C7: a source in `LISTENERS_SYNC` whose `termination_count` is still
nonzero more than 1500 ms after `timer_start` has
`SOURCE_RUNNING` and `SOURCE_LISTENERS_SYNC` cleared together in that
single `source_read` pass (which returns early), while its listener
count — possibly nonzero — is untouched. -/
theorem c7_sync_watchdog (s : SrcState) (t : Nat)
    (hsync : s.listenersSync = true)
    (htc : s.terminationCount ≠ 0)
    (htime : s.timerStart + 1500 < t) :
    (source_read_sync_check s t).1.running = false ∧
    (source_read_sync_check s t).1.listenersSync = false ∧
    (source_read_sync_check s t).2 = true ∧
    (source_read_sync_check s t).1.listeners = s.listeners ∧
    (source_read_sync_check s t).1.terminationCount = s.terminationCount := by
  simp [source_read_sync_check, hsync, htc, htime]

/-- Witness for C7: a stuck sync with 5 listeners attached, 1501 ms
after the sync began. -/
theorem c7_sync_watchdog_witness :
    (source_read_sync_check
      { running := true, onDemand := false, timeoutFlag := false,
        terminating := true, listenersSync := true, listeners := 5,
        terminationCount := 5, timerStart := 0, fallbackMount := none,
        fallbackFS := false, fallbackLimit := 0, fallbackType := 0,
        formatType := 0, limitRate := 0, connectedSecs := 0,
        inRateAvg := 0, woken := true } 1501).1.running = false ∧
    (source_read_sync_check
      { running := true, onDemand := false, timeoutFlag := false,
        terminating := true, listenersSync := true, listeners := 5,
        terminationCount := 5, timerStart := 0, fallbackMount := none,
        fallbackFS := false, fallbackLimit := 0, fallbackType := 0,
        formatType := 0, limitRate := 0, connectedSecs := 0,
        inRateAvg := 0, woken := true } 1501).1.listenersSync = false ∧
    (source_read_sync_check
      { running := true, onDemand := false, timeoutFlag := false,
        terminating := true, listenersSync := true, listeners := 5,
        terminationCount := 5, timerStart := 0, fallbackMount := none,
        fallbackFS := false, fallbackLimit := 0, fallbackType := 0,
        formatType := 0, limitRate := 0, connectedSecs := 0,
        inRateAvg := 0, woken := true } 1501).2 = true ∧
    (source_read_sync_check
      { running := true, onDemand := false, timeoutFlag := false,
        terminating := true, listenersSync := true, listeners := 5,
        terminationCount := 5, timerStart := 0, fallbackMount := none,
        fallbackFS := false, fallbackLimit := 0, fallbackType := 0,
        formatType := 0, limitRate := 0, connectedSecs := 0,
        inRateAvg := 0, woken := true } 1501).1.listeners =
      (5 : Nat) ∧
    (source_read_sync_check
      { running := true, onDemand := false, timeoutFlag := false,
        terminating := true, listenersSync := true, listeners := 5,
        terminationCount := 5, timerStart := 0, fallbackMount := none,
        fallbackFS := false, fallbackLimit := 0, fallbackType := 0,
        formatType := 0, limitRate := 0, connectedSecs := 0,
        inRateAvg := 0, woken := true } 1501).1.terminationCount =
      (5 : Nat) :=
  c7_sync_watchdog _ 1501 rfl (by decide) (by decide)

/-- C10: `source_set_fallback` with a NULL destination or on a source
without listeners leaves the source entirely unchanged; a fallback
record is installed exactly when the destination is non-nil and at
least one listener is attached. -/
theorem c10_set_fallback_frame (s : SrcState) :
    source_set_fallback s none = s ∧
    (∀ d, s.listeners = 0 → source_set_fallback s (some d) = s) ∧
    (∀ d, s.listeners ≠ 0 →
      (source_set_fallback s (some d)).fallbackMount = some d ∧
      (source_set_fallback s (some d)).fallbackFS = true ∧
      (source_set_fallback s (some d)).fallbackType = s.formatType) := by
  refine ⟨rfl, ?_, ?_⟩
  · intro d h
    simp [source_set_fallback, h]
  · intro d h
    simp [source_set_fallback, h]

/-- Witness for C10: zero-listener and three-listener sources with and
without a destination mount. -/
theorem c10_set_fallback_frame_witness :
    source_set_fallback
      { running := true, onDemand := false, timeoutFlag := false,
        terminating := false, listenersSync := false, listeners := 0,
        terminationCount := 0, timerStart := 0, fallbackMount := none,
        fallbackFS := false, fallbackLimit := 0, fallbackType := 0,
        formatType := 2, limitRate := 0, connectedSecs := 50,
        inRateAvg := 16000, woken := false } (some 9) =
      { running := true, onDemand := false, timeoutFlag := false,
        terminating := false, listenersSync := false, listeners := 0,
        terminationCount := 0, timerStart := 0, fallbackMount := none,
        fallbackFS := false, fallbackLimit := 0, fallbackType := 0,
        formatType := 2, limitRate := 0, connectedSecs := 50,
        inRateAvg := 16000, woken := false } ∧
    (source_set_fallback
      { running := true, onDemand := false, timeoutFlag := false,
        terminating := false, listenersSync := false, listeners := 3,
        terminationCount := 0, timerStart := 0, fallbackMount := none,
        fallbackFS := false, fallbackLimit := 0, fallbackType := 0,
        formatType := 2, limitRate := 0, connectedSecs := 50,
        inRateAvg := 16000, woken := false } (some 9)).fallbackMount =
      some 9 :=
  ⟨(c10_set_fallback_frame _).2.1 9 rfl,
   ((c10_set_fallback_frame _).2.2 9 (by decide)).1⟩

/-- The runtime flags of a source entry as consulted by mount
resolution (`source->flags` bits `SOURCE_RUNNING` and
`SOURCE_LISTENERS_SYNC`).  Mount names are abstracted to numbers. -/
structure SrcEntry where
  running : Bool
  listenersSync : Bool
deriving DecidableEq, Repr

/-- A `mount_proxy` configuration entry as consulted by mount
resolution: its `fallback_mount` field (possibly NULL). -/
structure MountCfg where
  fallbackMount : Option Nat
deriving DecidableEq, Repr

/-- Modelled from the spec: the `source_available` macro is declared in
`source.h`, which is not part of this tree; per the specification, "a
source is available when `RUNNING` is set and `LISTENERS_SYNC` is
clear". -/
def source_available (s : SrcEntry) : Bool := s.running && !s.listenersSync

/-- One configured fallback hop: `config_find_mount` for the mount
followed by its `fallback_mount` (`none` when there is no entry or the
entry has no fallback; both make `source_find_mount` stop). -/
def fallback_next (cfg : Nat → Option MountCfg) (m : Nat) : Option Nat :=
  (cfg m).bind MountCfg.fallbackMount

/-- The mount reached after `k` configured fallback hops from `m`. -/
def hop_mount (cfg : Nat → Option MountCfg) (m : Nat) : Nat → Option Nat
  | 0 => some m
  | k + 1 => (hop_mount cfg m k).bind (fallback_next cfg)

/-- The `while (mount && depth < MAX_FALLBACK_DEPTH)` loop of
`source_find_mount` (`src/src/source.c` lines 205-237), with `fuel`
the remaining depth budget (`MAX_FALLBACK_DEPTH - depth`).  `raw`
abstracts `source_find_mount_raw` (lines 173-198), the exact-match
lookup in the mount-keyed AVL tree.  Exhausted depth, a missing config
entry and a NULL `fallback_mount` all return NULL. -/
def find_mount_loop (raw : Nat → Option SrcEntry)
    (cfg : Nat → Option MountCfg) : Nat → Nat → Option SrcEntry
  | 0, _ => none
  | fuel + 1, mount =>
    match raw mount with
    | some s =>
      if source_available s then some s
      else
        match fallback_next cfg mount with
        | some m2 => find_mount_loop raw cfg fuel m2
        | none => none
    | none =>
      match fallback_next cfg mount with
      | some m2 => find_mount_loop raw cfg fuel m2
      | none => none

/-- `source_find_mount` (`src/src/source.c` lines 205-237):
`MAX_FALLBACK_DEPTH = 10`. -/
def source_find_mount (raw : Nat → Option SrcEntry)
    (cfg : Nat → Option MountCfg) (mount : Nat) : Option SrcEntry :=
  find_mount_loop raw cfg 10 mount

theorem hop_mount_zero (cfg : Nat → Option MountCfg) (m : Nat) :
    hop_mount cfg m 0 = some m := rfl

theorem hop_mount_shift (cfg : Nat → Option MountCfg) (m m2 : Nat)
    (h : fallback_next cfg m = some m2) :
    ∀ k, hop_mount cfg m (k + 1) = hop_mount cfg m2 k := by
  intro k
  induction k with
  | zero => simp [hop_mount, h]
  | succ k ih => rw [hop_mount, ih, hop_mount]

theorem hop_mount_stuck (cfg : Nat → Option MountCfg) (m : Nat)
    (h : fallback_next cfg m = none) :
    ∀ k, hop_mount cfg m (k + 1) = none := by
  intro k
  induction k with
  | zero => simp [hop_mount, h]
  | succ k ih => rw [hop_mount, ih]; rfl

theorem find_mount_loop_some_iff (raw : Nat → Option SrcEntry)
    (cfg : Nat → Option MountCfg) :
    ∀ (fuel m : Nat) (s : SrcEntry),
      find_mount_loop raw cfg fuel m = some s ↔
        ∃ k, k < fuel ∧
          (∃ mk, hop_mount cfg m k = some mk ∧ raw mk = some s ∧
            source_available s = true) ∧
          ∀ j, j < k → ∀ mj, hop_mount cfg m j = some mj →
            ∀ t, raw mj = some t → source_available t = false := by
  intro fuel
  induction fuel with
  | zero =>
    intro m s
    constructor
    · intro h
      exact absurd h (by simp [find_mount_loop])
    · rintro ⟨k, hk, -, -⟩
      omega
  | succ fuel ih =>
    intro m s
    cases hraw : raw m with
    | some t =>
      cases hav : source_available t with
      | true =>
        constructor
        · intro h
          have ht : some t = some s := by
            simpa [find_mount_loop, hraw, hav] using h
          have := Option.some.inj ht
          subst this
          exact ⟨0, by omega, ⟨m, rfl, hraw, hav⟩, by omega⟩
        · rintro ⟨k, hk, ⟨mk, hmk, hrawk, havs⟩, hprev⟩
          cases k with
          | zero =>
            simp only [hop_mount_zero, Option.some.injEq] at hmk
            subst hmk
            rw [hraw] at hrawk
            have := Option.some.inj hrawk
            subst this
            simp [find_mount_loop, hraw, hav]
          | succ k' =>
            have h0 := hprev 0 (by omega) m rfl t hraw
            rw [hav] at h0
            exact absurd h0 (by simp)
      | false =>
        cases hf : fallback_next cfg m with
        | some m2 =>
          constructor
          · intro h
            have h2 : find_mount_loop raw cfg fuel m2 = some s := by
              simpa [find_mount_loop, hraw, hav, hf] using h
            obtain ⟨k, hk, ⟨mk, hmk, hrawk, havs⟩, hprev⟩ := (ih m2 s).mp h2
            refine ⟨k + 1, by omega, ⟨mk, ?_, hrawk, havs⟩, ?_⟩
            · rw [hop_mount_shift cfg m m2 hf k]
              exact hmk
            · intro j hj mj hmj u hu
              cases j with
              | zero =>
                simp only [hop_mount_zero, Option.some.injEq] at hmj
                subst hmj
                rw [hraw] at hu
                have := Option.some.inj hu
                subst this
                exact hav
              | succ j' =>
                rw [hop_mount_shift cfg m m2 hf j'] at hmj
                exact hprev j' (by omega) mj hmj u hu
          · rintro ⟨k, hk, ⟨mk, hmk, hrawk, havs⟩, hprev⟩
            cases k with
            | zero =>
              simp only [hop_mount_zero, Option.some.injEq] at hmk
              subst hmk
              rw [hraw] at hrawk
              have := Option.some.inj hrawk
              subst this
              rw [havs] at hav
              exact absurd hav (by simp)
            | succ k' =>
              have h2 : find_mount_loop raw cfg fuel m2 = some s := by
                apply (ih m2 s).mpr
                refine ⟨k', by omega, ⟨mk, ?_, hrawk, havs⟩, ?_⟩
                · rw [← hop_mount_shift cfg m m2 hf k']
                  exact hmk
                · intro j hj mj hmj u hu
                  rw [← hop_mount_shift cfg m m2 hf j] at hmj
                  exact hprev (j + 1) (by omega) mj hmj u hu
              simp [find_mount_loop, hraw, hav, hf, h2]
        | none =>
          constructor
          · intro h
            exact absurd h (by simp [find_mount_loop, hraw, hav, hf])
          · rintro ⟨k, hk, ⟨mk, hmk, hrawk, havs⟩, hprev⟩
            cases k with
            | zero =>
              simp only [hop_mount_zero, Option.some.injEq] at hmk
              subst hmk
              rw [hraw] at hrawk
              have := Option.some.inj hrawk
              subst this
              rw [havs] at hav
              exact absurd hav (by simp)
            | succ k' =>
              rw [hop_mount_stuck cfg m hf k'] at hmk
              exact absurd hmk (by simp)
    | none =>
      cases hf : fallback_next cfg m with
      | some m2 =>
        constructor
        · intro h
          have h2 : find_mount_loop raw cfg fuel m2 = some s := by
            simpa [find_mount_loop, hraw, hf] using h
          obtain ⟨k, hk, ⟨mk, hmk, hrawk, havs⟩, hprev⟩ := (ih m2 s).mp h2
          refine ⟨k + 1, by omega, ⟨mk, ?_, hrawk, havs⟩, ?_⟩
          · rw [hop_mount_shift cfg m m2 hf k]
            exact hmk
          · intro j hj mj hmj u hu
            cases j with
            | zero =>
              simp only [hop_mount_zero, Option.some.injEq] at hmj
              subst hmj
              rw [hraw] at hu
              exact absurd hu (by simp)
            | succ j' =>
              rw [hop_mount_shift cfg m m2 hf j'] at hmj
              exact hprev j' (by omega) mj hmj u hu
        · rintro ⟨k, hk, ⟨mk, hmk, hrawk, havs⟩, hprev⟩
          cases k with
          | zero =>
            simp only [hop_mount_zero, Option.some.injEq] at hmk
            subst hmk
            rw [hraw] at hrawk
            exact absurd hrawk (by simp)
          | succ k' =>
            have h2 : find_mount_loop raw cfg fuel m2 = some s := by
              apply (ih m2 s).mpr
              refine ⟨k', by omega, ⟨mk, ?_, hrawk, havs⟩, ?_⟩
              · rw [← hop_mount_shift cfg m m2 hf k']
                exact hmk
              · intro j hj mj hmj u hu
                rw [← hop_mount_shift cfg m m2 hf j] at hmj
                exact hprev (j + 1) (by omega) mj hmj u hu
            simp [find_mount_loop, hraw, hf, h2]
      | none =>
        constructor
        · intro h
          exact absurd h (by simp [find_mount_loop, hraw, hf])
        · rintro ⟨k, hk, ⟨mk, hmk, hrawk, havs⟩, hprev⟩
          cases k with
          | zero =>
            simp only [hop_mount_zero, Option.some.injEq] at hmk
            subst hmk
            rw [hraw] at hrawk
            exact absurd hrawk (by simp)
          | succ k' =>
            rw [hop_mount_stuck cfg m hf k'] at hmk
            exact absurd hmk (by simp)

/-- C5: `source_find_mount` resolves a mount iff within
`MAX_FALLBACK_DEPTH = 10` hops along the configured `fallback_mount`
chain there is a mount whose exact-match source is available (`RUNNING`
set, `LISTENERS_SYNC` clear), every earlier hop's exact match being
absent or unavailable; in particular it returns nil once the depth is
exhausted or a mount has no configured fallback mapping. -/
theorem c5_find_mount_fallback_resolution (raw : Nat → Option SrcEntry)
    (cfg : Nat → Option MountCfg) (m : Nat) (s : SrcEntry) :
    source_find_mount raw cfg m = some s ↔
      ∃ k, k < 10 ∧
        (∃ mk, hop_mount cfg m k = some mk ∧ raw mk = some s ∧
          source_available s = true) ∧
        ∀ j, j < k → ∀ mj, hop_mount cfg m j = some mj →
          ∀ t, raw mj = some t → source_available t = false :=
  find_mount_loop_some_iff raw cfg 10 m s

/-- Concrete mount registry for the C5 witness: mount 0 exists but is
syncing (unavailable), mount 1 is available. -/
def rawDemo : Nat → Option SrcEntry := fun m =>
  if m = 0 then some { running := true, listenersSync := true }
  else if m = 1 then some { running := true, listenersSync := false }
  else none

/-- Concrete configuration for the C5 witness: mount 0 falls back to
mount 1. -/
def cfgDemo : Nat → Option MountCfg := fun m =>
  if m = 0 then some { fallbackMount := some 1 } else none

/-- Witness for C5: resolving mount 0 follows one fallback hop to the
available source on mount 1. -/
theorem c5_find_mount_fallback_resolution_witness :
    ∃ k, k < 10 ∧
      (∃ mk, hop_mount cfgDemo 0 k = some mk ∧
        rawDemo mk = some { running := true, listenersSync := false } ∧
        source_available { running := true, listenersSync := false } = true) ∧
      ∀ j, j < k → ∀ mj, hop_mount cfgDemo 0 j = some mj →
        ∀ t, rawDemo mj = some t → source_available t = false :=
  (c5_find_mount_fallback_resolution rawDemo cfgDemo 0
    { running := true, listenersSync := false }).mp (by decide)

/-- Inputs of `locate_start_on_queue` (`src/src/source.c` lines
701-755).  `chain` is the `next` chain from `min_queue_point` to the
tail (`[]` models `stream_data_tail == NULL`); `burstQueryArg` and
`initialBurstHeader` are the `atol` values of the `burst` query
parameter and `initial-burst` header when present;
`defaultBurstSize`, `sentBytes` and `sourceQueuePos` stand for
`source->default_burst_size`, `client->connection.sent_bytes` and
`source->client->queue_pos`. -/
structure LocateIn where
  chain : List RefBlock
  minQueueOffset : Nat
  minQueueSize : Nat
  defaultBurstSize : Int
  sourceQueuePos : Int
  sentBytes : Nat
  connError : Bool
  burstQueryArg : Option Int
  initialBurstHeader : Option Int
deriving DecidableEq, Repr

/-- Result of `locate_start_on_queue`: position assigned (`refbuf`,
`pos = 0`, `queue_pos`, `intro_offset = -1`; return 0), or no sync
point found (`schedule_ms += 150`; return -1), or the immediate -1 for
a connection error / empty queue. -/
inductive LocateResult where
  | found (chosen : RefBlock) (pos : Nat) (queuePos : Int) (introOffset : Int)
  | reschedule150
  | noStart
deriving DecidableEq, Repr

/-- The `size > v` comparison on line 730: `size` is a `size_t` and `v`
an `off_t`, so C's usual conversions compare both as unsigned 64-bit
values (a negative `v` wraps to a huge value and the walk stops). -/
def size_gt_v (size : Nat) (v : Int) : Bool :=
  decide ((size : Int) % (2 ^ 64) > v % (2 ^ 64))

/-- The burst walk of `locate_start_on_queue` (lines 730-735): from
`min_queue_point`, while `size > v` and the block has a successor,
subtract the block's length from `size` and `lag` and advance.  The
`size_t` subtraction cannot underflow in well-formed states because the
subtracted lengths (all but the tail's) sum to at most
`min_queue_size`, the initial `size`. -/
def burst_walk (v : Int) : Nat → Int → List RefBlock →
    List RefBlock × Int
  | size, lag, b :: c :: rest =>
    if size_gt_v size v then
      burst_walk v (size - b.len) (lag - (b.len : Int)) (c :: rest)
    else (b :: c :: rest, lag)
  | _, lag, chain => (chain, lag)

/-- The sync scan of `locate_start_on_queue` (lines 740-752): advance
to the first block flagged `SOURCE_BLOCK_SYNC`, subtracting the length
of every skipped block from `lag`; `none` when no sync block
follows. -/
def sync_scan : List RefBlock → Int → Option (RefBlock × Int)
  | [], _ => none
  | b :: rest, lag =>
    if b.sync then some (b, lag) else sync_scan rest (lag - (b.len : Int))

/-- The choice of the burst start point (lines 711-738): if the client
has already been sent more than `min_queue_offset` bytes and the tail
is a sync point, start at the tail with `lag = tail.len`; otherwise
take the requested burst value (query parameter, else header, else
`default_burst_size`) minus the bytes already sent, and run the burst
walk from `min_queue_point` with `lag = min_queue_offset`. -/
def locate_burst_point (inp : LocateIn) (tail : RefBlock) :
    List RefBlock × Int :=
  if inp.sentBytes > inp.minQueueOffset ∧ tail.sync then
    ([tail], (tail.len : Int))
  else
    let v0 : Int :=
      match inp.burstQueryArg, inp.initialBurstHeader with
      | some a, _ => a
      | none, some h => h
      | none, none => inp.defaultBurstSize
    burst_walk (v0 - (inp.sentBytes : Int)) inp.minQueueSize
      ((inp.minQueueOffset : Int)) inp.chain

/-- `locate_start_on_queue` (`src/src/source.c` lines 701-755). -/
def locate_start_on_queue (inp : LocateIn) : LocateResult :=
  if inp.connError then .noStart
  else
    match inp.chain.getLast? with
    | none => .noStart
    | some tail =>
      match sync_scan (locate_burst_point inp tail).1
          (locate_burst_point inp tail).2 with
      | some (b, lag) => .found b 0 (inp.sourceQueuePos - lag) (-1)
      | none => .reschedule150

theorem getLast_concat {α : Type} (l : List α) (a : α)
    (h : l.getLast? = some a) : ∃ l', l = l' ++ [a] := by
  induction l with
  | nil => simp at h
  | cons b rest ih =>
    cases rest with
    | nil =>
      simp at h
      exact ⟨[], by simp [h]⟩
    | cons c rest' =>
      rw [List.getLast?_cons_cons] at h
      obtain ⟨l', hl⟩ := ih h
      exact ⟨b :: l', by simp [hl]⟩

theorem sync_scan_spec : ∀ (chain : List RefBlock) (lag : Int),
    lag = (sumLens chain : Int) →
    (∃ pre b rest, chain = pre ++ b :: rest ∧ (∀ c ∈ pre, c.sync = false) ∧
      b.sync = true ∧
      sync_scan chain lag = some (b, (sumLens (b :: rest) : Int))) ∨
    ((∀ c ∈ chain, c.sync = false) ∧ sync_scan chain lag = none) := by
  intro chain
  induction chain with
  | nil =>
    intro lag _
    right
    exact ⟨by simp, rfl⟩
  | cons b rest ih =>
    intro lag h
    cases hs : b.sync with
    | true =>
      left
      exact ⟨[], b, rest, by simp, by simp, hs, by simp [sync_scan, hs, h]⟩
    | false =>
      have h' : lag - (b.len : Int) = (sumLens rest : Int) := by
        rw [h, sumLens_cons]
        push_cast
        ring
      rcases ih (lag - (b.len : Int)) h' with
        ⟨pre, b', rest', heq, hpre, hsync, hscan⟩ | ⟨hall, hscan⟩
      · left
        refine ⟨b :: pre, b', rest', by simp [heq], ?_, hsync, ?_⟩
        · intro c hc
          rcases List.mem_cons.mp hc with h | h
          · rw [h]; exact hs
          · exact hpre c h
        · simp [sync_scan, hs, hscan]
      · right
        refine ⟨?_, by simp [sync_scan, hs, hscan]⟩
        intro c hc
        rcases List.mem_cons.mp hc with h | h
        · rw [h]; exact hs
        · exact hall c h

theorem burst_walk_suffix (v : Int) :
    ∀ (chain : List RefBlock) (size : Nat) (lag : Int),
      lag = (sumLens chain : Int) →
      ∃ pre, chain = pre ++ (burst_walk v size lag chain).1 ∧
        (burst_walk v size lag chain).2 =
          (sumLens (burst_walk v size lag chain).1 : Int) := by
  intro chain
  induction chain with
  | nil =>
    intro size lag h
    exact ⟨[], by simp [burst_walk], by simp [burst_walk, h]⟩
  | cons b rest ih =>
    intro size lag h
    cases rest with
    | nil => exact ⟨[], by simp [burst_walk], by simp [burst_walk, h]⟩
    | cons c rest' =>
      cases hgt : size_gt_v size v with
      | true =>
        have h' : lag - (b.len : Int) = (sumLens (c :: rest') : Int) := by
          rw [h, sumLens_cons]
          push_cast
          ring
        obtain ⟨pre, hpre, hlag⟩ := ih (size - b.len) (lag - (b.len : Int)) h'
        refine ⟨b :: pre, ?_, ?_⟩
        · simp only [burst_walk, hgt, if_true]
          simpa using hpre
        · simp only [burst_walk, hgt, if_true]
          exact hlag
      | false =>
        exact ⟨[], by simp [burst_walk, hgt], by simp [burst_walk, hgt, h]⟩

theorem len_le_sumLens (b : RefBlock) (l : List RefBlock) (h : b ∈ l) :
    b.len ≤ sumLens l := by
  induction l with
  | nil => cases h
  | cons c rest ih =>
    rcases List.mem_cons.mp h with h | h
    · subst h
      rw [sumLens_cons]
      omega
    · rw [sumLens_cons]
      have := ih h
      omega

/-- C3 (amended): on a non-empty queue without a connection error,
`locate_start_on_queue` either sets the listener on the *first*
`SYNC_POINT`-flagged block at or after the chosen burst point with
`pos = 0` and `queue_pos = source.queue_pos - lag`, where `lag` is the
byte distance from that block to the end of the queue and satisfies
`0 ≤ lag ≤ min_queue_offset` (not `min_queue_size`: a lone oversized
block makes `lag` exceed it), or — when no block from the chosen point
on is sync-flagged — reschedules the listener 150 ms later with no
position assigned. -/
theorem c3_locate_start_sync (inp : LocateIn) (tail : RefBlock)
    (herr : inp.connError = false)
    (htail : inp.chain.getLast? = some tail)
    (hsum : inp.minQueueOffset = sumLens inp.chain) :
    (∃ pre b rest,
      (locate_burst_point inp tail).1 = pre ++ b :: rest ∧
      (∀ c ∈ pre, c.sync = false) ∧ b.sync = true ∧
      locate_start_on_queue inp =
        .found b 0 (inp.sourceQueuePos - (sumLens (b :: rest) : Int)) (-1) ∧
      sumLens (b :: rest) ≤ inp.minQueueOffset) ∨
    ((∀ c ∈ (locate_burst_point inp tail).1, c.sync = false) ∧
      locate_start_on_queue inp = .reschedule150) := by
  have hstart : ∃ pre0, inp.chain = pre0 ++ (locate_burst_point inp tail).1 ∧
      (locate_burst_point inp tail).2 =
        (sumLens (locate_burst_point inp tail).1 : Int) := by
    rw [locate_burst_point]
    by_cases hcond : inp.sentBytes > inp.minQueueOffset ∧ tail.sync
    · obtain ⟨l', hl⟩ := getLast_concat inp.chain tail htail
      rw [if_pos hcond]
      exact ⟨l', by simpa using hl, by simp [sumLens_cons, sumLens_nil]⟩
    · rw [if_neg hcond]
      obtain ⟨pre0, hpre0, hlag⟩ :=
        burst_walk_suffix _ inp.chain inp.minQueueSize
          ((inp.minQueueOffset : Int)) (by exact_mod_cast hsum)
      exact ⟨pre0, hpre0, hlag⟩
  obtain ⟨pre0, hpre0, hlag0⟩ := hstart
  rcases sync_scan_spec (locate_burst_point inp tail).1
      (locate_burst_point inp tail).2 hlag0 with
    ⟨pre, b, rest, heq, hpre, hsync, hscan⟩ | ⟨hall, hscan⟩
  · left
    refine ⟨pre, b, rest, heq, hpre, hsync, ?_, ?_⟩
    · simp [locate_start_on_queue, herr, htail, hscan]
    · rw [hsum, hpre0, heq, sumLens_append, sumLens_append]
      omega
  · right
    refine ⟨hall, ?_⟩
    simp [locate_start_on_queue, herr, htail, hscan]

/-- Concrete input for the C3 witness: a two-block queue whose tail is
a sync point, default burst 0. -/
def locateDemo : LocateIn :=
  { chain := [{ id := 0, len := 2 }, { id := 1, len := 3, sync := true }],
    minQueueOffset := 5, minQueueSize := 10, defaultBurstSize := 0,
    sourceQueuePos := 50, sentBytes := 0, connError := false,
    burstQueryArg := none, initialBurstHeader := none }

/-- Witness for C3 (amended): the walk picks the sync-flagged tail,
`queue_pos = 50 - 3` with `lag = 3 ≤ min_queue_offset = 5`. -/
theorem c3_locate_start_sync_witness :
    (∃ pre b rest,
      (locate_burst_point locateDemo
        { id := 1, len := 3, sync := true }).1 = pre ++ b :: rest ∧
      (∀ c ∈ pre, c.sync = false) ∧ b.sync = true ∧
      locate_start_on_queue locateDemo =
        .found b 0 (locateDemo.sourceQueuePos -
          (sumLens (b :: rest) : Int)) (-1) ∧
      sumLens (b :: rest) ≤ locateDemo.minQueueOffset) ∨
    ((∀ c ∈ (locate_burst_point locateDemo
        { id := 1, len := 3, sync := true }).1, c.sync = false) ∧
      locate_start_on_queue locateDemo = .reschedule150) :=
  c3_locate_start_sync locateDemo { id := 1, len := 3, sync := true }
    rfl (by decide) (by decide)

/-- Concrete input refuting C3's `lag ≤ min_queue_size` bound: a
single 10-byte sync block retained while `min_queue_size = 5`. -/
def locateCex : LocateIn :=
  { chain := [{ id := 0, len := 10, sync := true }],
    minQueueOffset := 10, minQueueSize := 5, defaultBurstSize := 0,
    sourceQueuePos := 100, sentBytes := 0, connError := false,
    burstQueryArg := none, initialBurstHeader := none }

/-- Counterexample to C3 as stated: `locate_start_on_queue` assigns
`queue_pos = 100 - 10`, i.e. a lag of 10 bytes, which exceeds
`min_queue_size = 5`; so the claimed `lag ≤ min_queue_size` bound
fails (the correct bound is `min_queue_offset`). -/
theorem c3_counterexample :
    locate_start_on_queue locateCex =
      .found { id := 0, len := 10, sync := true } 0 90 (-1) ∧
    ¬(locateCex.sourceQueuePos - 90 ≤ (locateCex.minQueueSize : Int)) := by
  decide

/-- `client->refbuf && (client->refbuf->flags & SOURCE_BLOCK_RELEASE)`
for an optional refbuf. -/
def refbuf_release_flag (rb : Option RefBlock) : Bool :=
  match rb with
  | some b => b.release
  | none => false

/-- Inputs of `send_listener` (`src/src/source.c` lines 986-1081)
other than the `check_buffer` dispatch.  `migrateCheck` is the
condition `source->client_stats_update - 1 == now && source->client->
worker != worker` of line 1015; `trigger` is
`source->listener_send_trigger`; rates and positions are signed as in
C (`incoming_rate` and positions are nonnegative in real states). -/
structure SendIn where
  listenersSync : Bool
  disconTime : Nat
  now : Nat
  running : Bool
  migrateCheck : Bool
  srcQueuePos : Int
  clQueuePos : Int
  incomingRate : Int
  trigger : Int
  maxRate : Bool
  throttleSends : Nat
deriving DecidableEq, Repr

/-- Outcome of one `send_listener` scheduling: the early returns, or a
completed pass with the number of `check_buffer` calls, the
accumulated `total_written`, the return value and whether the listener
was dropped as slow (`MARKED_FOR_RELEASE` refbuf). -/
inductive SendOutcome where
  | syncWait
  | errorDrop
  | timeLimit
  | notRunning
  | migrated
  | throttled
  | sent (calls : Nat) (total : Int) (ret : Int) (dropSlow : Bool)
deriving DecidableEq, Repr

/-- The `limiter` of `send_listener` (lines 990 and 1021-1022):
`listener_send_trigger`, replaced by `incoming_rate / 2` when
`incoming_rate` is nonzero and the listener lags by less than
`incoming_rate` bytes. -/
def send_limiter (inp : SendIn) : Int :=
  if inp.incomingRate ≠ 0 ∧ inp.srcQueuePos - inp.clQueuePos < inp.incomingRate
  then inp.incomingRate / 2
  else inp.trigger

/-- The bounded inner send loop of `send_listener` (lines 1044-1065).
`loopCtr` is the remaining `loop` budget (initially 12, or 2 under
throttle), `calls` the number of `check_buffer` invocations made so
far and `total` the accumulated `total_written`.  `err n` is the state
of `client->connection.error` after `n` calls and `cb n` the return
value of the `n`-th `check_buffer` call (the per-state `check_buffer`
functions are driven through a function pointer; here they are an
oracle). -/
def send_loop (limiter : Int) (err : Nat → Bool) (cb : Nat → Int) :
    Nat → Nat → Int → Nat × Int × Int
  | 0, calls, total =>
    if err calls then (calls, total, -1) else (calls, total, 0)
  | loopCtr + 1, calls, total =>
    if err calls then (calls, total, -1)
    else if total > limiter then (calls, total, 0)
    else if cb calls < 0 then (calls, total, 0)
    else send_loop limiter err cb loopCtr (calls + 1) (total + cb calls)

/-- Sum of the first `n` `check_buffer` return values. -/
def cbSum (cb : Nat → Int) : Nat → Int
  | 0 => 0
  | n + 1 => cbSum cb n + cb n

/-- `send_listener` (`src/src/source.c` lines 986-1081).
`refbufAfter n` is the listener's current refbuf once `n`
`check_buffer` calls have run (check_buffer may replace it). -/
def send_listener (inp : SendIn) (err : Nat → Bool) (cb : Nat → Int)
    (refbufAfter : Nat → Option RefBlock) : SendOutcome :=
  if inp.listenersSync then .syncWait
  else if err 0 then .errorDrop
  else if inp.disconTime ≠ 0 ∧ inp.now ≥ inp.disconTime then .timeLimit
  else if ¬inp.running then .notRunning
  else if inp.migrateCheck then .migrated
  else if inp.maxRate ∧ inp.throttleSends > 2 then .throttled
  else
    let loop0 := if inp.maxRate ∧ inp.throttleSends > 1 then 2 else 12
    match send_loop (send_limiter inp) err cb loop0 0 0 with
    | (calls, total, ret0) =>
      let dropSlow := refbuf_release_flag (refbufAfter calls)
      .sent calls total (if dropSlow then -1 else ret0) dropSlow

theorem send_loop_spec (limiter : Int) (err : Nat → Bool) (cb : Nat → Int) :
    ∀ (n calls : Nat) (total : Int), total = cbSum cb calls →
      ∃ calls' total' ret,
        send_loop limiter err cb n calls total = (calls', total', ret) ∧
        calls ≤ calls' ∧ calls' - calls ≤ n ∧ total' = cbSum cb calls' ∧
        ∀ k, calls ≤ k → k < calls' →
          err k = false ∧ 0 ≤ cb k ∧ cbSum cb k ≤ limiter := by
  intro n
  induction n with
  | zero =>
    intro calls total htot
    by_cases he : err calls = true
    · exact ⟨calls, total, -1, by simp [send_loop, he], le_refl _, by omega,
        htot, by omega⟩
    · have he' : err calls = false := by
        cases h : err calls
        · rfl
        · exact absurd h he
      exact ⟨calls, total, 0, by simp [send_loop, he'], le_refl _, by omega,
        htot, by omega⟩
  | succ n ih =>
    intro calls total htot
    by_cases he : err calls = true
    · exact ⟨calls, total, -1, by simp [send_loop, he], le_refl _, by omega,
        htot, by omega⟩
    · have he' : err calls = false := by
        cases h : err calls
        · rfl
        · exact absurd h he
      by_cases hlim : total > limiter
      · exact ⟨calls, total, 0, by simp [send_loop, he', hlim], le_refl _,
          by omega, htot, by omega⟩
      · by_cases hcb : cb calls < 0
        · exact ⟨calls, total, 0, by simp [send_loop, he', hlim, hcb],
            le_refl _, by omega, htot, by omega⟩
        · have htot' : total + cb calls = cbSum cb (calls + 1) := by
            rw [cbSum, htot]
          obtain ⟨calls', total', ret, heq, hge, hn, htot'', hprops⟩ :=
            ih (calls + 1) (total + cb calls) htot'
          refine ⟨calls', total', ret, ?_, by omega, by omega, htot'', ?_⟩
          · simp [send_loop, he', hlim, hcb, heq]
          · intro k hk1 hk2
            rcases Nat.eq_or_lt_of_le hk1 with h | h
            · subst h
              exact ⟨he', by omega, by rw [← htot]; omega⟩
            · exact hprops k h hk2

/-- C8 (amended): for a listener of a running, non-syncing source with
no connection error, no pending time limit, no worker migration and no
hard throttle, `send_listener` calls `check_buffer` at most 12 times,
every call is made only while the accumulated bytes written do not yet
exceed the limiter — `listener_send_trigger`, or `incoming_rate / 2`
when the listener lags by less than `incoming_rate` (the claim's
unconditional `listener_send_trigger` bound fails in that case) — and
at the end of the pass a refbuf flagged `MARKED_FOR_RELEASE` makes the
listener be dropped as slow (return -1). -/
theorem c8_send_listener_bounded (inp : SendIn) (err : Nat → Bool)
    (cb : Nat → Int) (refbufAfter : Nat → Option RefBlock)
    (hsync : inp.listenersSync = false)
    (herr : err 0 = false)
    (hdiscon : ¬(inp.disconTime ≠ 0 ∧ inp.now ≥ inp.disconTime))
    (hrun : inp.running = true)
    (hmig : inp.migrateCheck = false)
    (hthr : ¬(inp.maxRate ∧ inp.throttleSends > 2)) :
    ∃ calls total ret drop,
      send_listener inp err cb refbufAfter = .sent calls total ret drop ∧
      calls ≤ 12 ∧
      total = cbSum cb calls ∧
      (∀ k, k < calls →
        err k = false ∧ 0 ≤ cb k ∧ cbSum cb k ≤ send_limiter inp) ∧
      drop = refbuf_release_flag (refbufAfter calls) ∧
      (drop = true → ret = -1) := by
  obtain ⟨calls, total, ret0, heq, -, hn, htot, hprops⟩ :=
    send_loop_spec (send_limiter inp) err cb
      (if inp.maxRate ∧ inp.throttleSends > 1 then 2 else 12) 0 0 rfl
  have hloop0 : (if inp.maxRate ∧ inp.throttleSends > 1 then 2 else 12) ≤ 12 := by
    by_cases h : inp.maxRate ∧ inp.throttleSends > 1
    · simp [h]
    · simp [h]
  refine ⟨calls, total,
    (if refbuf_release_flag (refbufAfter calls) then -1 else ret0),
    refbuf_release_flag (refbufAfter calls), ?_, by omega, htot, ?_, rfl, ?_⟩
  · simp only [send_listener, hsync, herr, hrun, hmig,
      Bool.false_eq_true, if_false, not_true_eq_false, ite_false]
    rw [if_neg hdiscon, if_neg hthr]
    rw [heq]
  · intro k hk
    exact hprops k (by omega) hk
  · intro hdrop
    rw [hdrop]
    simp

/-- Concrete inputs for the C8 counterexample and witness:
`listener_send_trigger = 10` but the listener lags by 50 <
`incoming_rate = 100`, so the limiter is 50. -/
def sendCex : SendIn :=
  { listenersSync := false, disconTime := 0, now := 0, running := true,
    migrateCheck := false, srcQueuePos := 50, clQueuePos := 0,
    incomingRate := 100, trigger := 10, maxRate := false,
    throttleSends := 0 }

/-- Counterexample to C8 as stated: with `check_buffer` returning 20
bytes per call, `send_listener` performs a third call although the
accumulated 40 bytes already exceed `listener_send_trigger = 10` — the
loop stops at the limiter `incoming_rate / 2 = 50`, not at
`listener_send_trigger`. -/
theorem c8_counterexample :
    send_listener sendCex (fun _ => false) (fun _ => 20) (fun _ => none) =
      .sent 3 60 0 false ∧
    cbSum (fun _ => 20) 2 > sendCex.trigger := by
  decide

/-- Witness for C8 (amended) on the same concrete inputs. -/
theorem c8_send_listener_bounded_witness :
    ∃ calls total ret drop,
      send_listener sendCex (fun _ => false) (fun _ => 20)
        (fun _ => none) = .sent calls total ret drop ∧
      calls ≤ 12 ∧
      total = cbSum (fun _ => 20) calls ∧
      (∀ k, k < calls →
        (fun _ => false) k = false ∧ 0 ≤ (fun _ => (20 : Int)) k ∧
        cbSum (fun _ => 20) k ≤ send_limiter sendCex) ∧
      drop = refbuf_release_flag ((fun _ => none) calls) ∧
      (drop = true → ret = -1) :=
  c8_send_listener_bounded sendCex (fun _ => false) (fun _ => 20)
    (fun _ => none) rfl rfl (by decide) rfl rfl (by decide)

/-- A listener as consulted by `check_duplicate_logins`: its username
(possibly NULL; usernames abstracted to numbers), its
`connection.error` field and the `CLIENT_IS_SLAVE` flag. -/
structure LsnR where
  uname : Option Nat
  connError : Nat
  slave : Bool
deriving DecidableEq, Repr

/-- The duplicate-user policy fields of a mount's `auth_t`. -/
structure AuthR where
  allowDuplicateUsers : Bool
  dropExistingListener : Bool
deriving DecidableEq, Repr

/-- The scan over `source->clients` in `check_duplicate_logins`
(`src/src/source.c` lines 1760-1777): at the first attached listener
with the same username, either set its `connection.error = 1` and
allow (drop policy) or refuse; listeners after the first match are not
examined. -/
def scan_clients (drop : Bool) (u : Nat) : List LsnR → Bool × List LsnR
  | [] => (true, [])
  | c :: rest =>
    if c.uname = some u then
      if drop then (true, { c with connError := 1 } :: rest)
      else (false, c :: rest)
    else
      match scan_clients drop u rest with
      | (ok, rest') => (ok, c :: rest')

/-- `check_duplicate_logins` (`src/src/source.c` lines 1749-1779):
returns the 1/0 verdict as a Bool together with the possibly updated
listener set.  No auth, permitted duplicates, a NULL username or a
slave client short-circuit to "allow". -/
def check_duplicate_logins (clients : List LsnR) (cl : LsnR)
    (auth : Option AuthR) : Bool × List LsnR :=
  match auth with
  | none => (true, clients)
  | some a =>
    if a.allowDuplicateUsers then (true, clients)
    else
      match cl.uname with
      | none => (true, clients)
      | some u =>
        if cl.slave then (true, clients)
        else scan_clients a.dropExistingListener u clients

/-- Outcome of the duplicate-login step of `source_add_listener`
(`src/src/source.c` lines 1957-1961): the listener proceeds, or is
refused via `client_send_403 (client, "Account already in use")` —
that message is encoded by the constructor name. -/
inductive AdmitDup where
  | admitted (clients : List LsnR)
  | rejected403AccountAlreadyInUse (clients : List LsnR)
deriving DecidableEq, Repr

/-- The duplicate-login step of `source_add_listener` (lines
1957-1961). -/
def source_add_listener_dup_check (clients : List LsnR) (cl : LsnR)
    (auth : Option AuthR) : AdmitDup :=
  match check_duplicate_logins clients cl auth with
  | (true, clients') => .admitted clients'
  | (false, clients') => .rejected403AccountAlreadyInUse clients'

theorem scan_clients_skip (drop : Bool) (u : Nat) :
    ∀ (pre : List LsnR), (∀ c ∈ pre, c.uname ≠ some u) →
      ∀ rest, scan_clients drop u (pre ++ rest) =
        ((scan_clients drop u rest).1, pre ++ (scan_clients drop u rest).2) := by
  intro pre
  induction pre with
  | nil => intro _ rest; simp
  | cons c pre' ih =>
    intro hpre rest
    have hc : ¬(c.uname = some u) := hpre c (by simp)
    have ih' := ih (fun d hd => hpre d (by simp [hd])) rest
    simp only [List.cons_append, scan_clients, if_neg hc]
    rw [List.append_eq, ih']

/-- C9: during admission with an auth that forbids duplicate users, a
non-slave listener with a username already in use by an attached
listener (the first such, `m`, preceded by non-matching listeners) is
admitted with the existing listener's `connection.error` set to 1 when
`drop_existing_listener` is set, and otherwise is rejected with a 403
"Account already in use" while the existing listeners are left
unchanged. -/
theorem c9_duplicate_logins (a : AuthR) (cl : LsnR) (u : Nat)
    (pre post : List LsnR) (m : LsnR)
    (hallow : a.allowDuplicateUsers = false)
    (huname : cl.uname = some u)
    (hslave : cl.slave = false)
    (hmatch : m.uname = some u)
    (hpre : ∀ c ∈ pre, c.uname ≠ some u) :
    (a.dropExistingListener = true →
      source_add_listener_dup_check (pre ++ m :: post) cl (some a) =
        .admitted (pre ++ { m with connError := 1 } :: post)) ∧
    (a.dropExistingListener = false →
      source_add_listener_dup_check (pre ++ m :: post) cl (some a) =
        .rejected403AccountAlreadyInUse (pre ++ m :: post)) := by
  have hscan := scan_clients_skip a.dropExistingListener u pre hpre (m :: post)
  constructor
  · intro hdrop
    simp only [source_add_listener_dup_check, check_duplicate_logins,
      hallow, huname, hslave, Bool.false_eq_true, if_false, ite_false]
    rw [hscan]
    simp [scan_clients, hmatch, hdrop]
  · intro hdrop
    simp only [source_add_listener_dup_check, check_duplicate_logins,
      hallow, huname, hslave, Bool.false_eq_true, if_false, ite_false]
    rw [hscan]
    simp [scan_clients, hmatch, hdrop]

/-- Witness for C9: user 7 joins twice under the drop policy; the
prior listener is marked `connection.error = 1` and the new one is
admitted. -/
theorem c9_duplicate_logins_witness :
    source_add_listener_dup_check
      [{ uname := some 3, connError := 0, slave := false },
       { uname := some 7, connError := 0, slave := false }]
      { uname := some 7, connError := 0, slave := false }
      (some { allowDuplicateUsers := false, dropExistingListener := true }) =
      .admitted
        [{ uname := some 3, connError := 0, slave := false },
         { uname := some 7, connError := 1, slave := false }] :=
  (c9_duplicate_logins
    { allowDuplicateUsers := false, dropExistingListener := true }
    { uname := some 7, connError := 0, slave := false } 7
    [{ uname := some 3, connError := 0, slave := false }] []
    { uname := some 7, connError := 0, slave := false }
    rfl rfl rfl rfl (by decide)).1 rfl
